import Mathlib

/-!
Verification of the routing and collaboration engine
(src/agent/collaboration.py, src/agent/router.py,
src/agent/multi_agent_orchestrator.py).

The Python code is shallowly embedded: dataclasses become structures,
dictionaries become association lists (`List (String × _)`), duck-typed
attribute probing (`hasattr`) becomes `Option` fields, and a call that may
raise becomes an `Except String` value.  Timestamps are omitted (no claim
touches them).  All definitions are executable.
-/

set_option maxRecDepth 4000

/-! ### String primitives

Lean's library `String.trim`/`toLower`/`splitOn`/`startsWith` are built on
well-founded-recursive `Substring` loops that the kernel cannot evaluate, so
the Python string operations are embedded as structurally recursive
functions over the character list instead. -/

/-- Python's whitespace set for `str.strip()` (ASCII part). -/
def isPyWhitespace (c : Char) : Bool :=
  c == ' ' || c == '\t' || c == '\n' || c == '\r' || c == '\x0b' || c == '\x0c'

/-- Python's `str.strip()`. -/
def strTrim (s : String) : String :=
  String.mk (((s.toList.dropWhile isPyWhitespace).reverse.dropWhile isPyWhitespace).reverse)

/-- Python's `str.lower()` (ASCII; every string in the embedded code is ASCII). -/
def strToLower (s : String) : String :=
  String.mk (s.toList.map Char.toLower)

/-- Python's `str.upper()` (ASCII). -/
def strToUpper (s : String) : String :=
  String.mk (s.toList.map Char.toUpper)

/-- Python's `str.startswith(pre)`. -/
def strStartsWith (s pre : String) : Bool :=
  pre.toList.isPrefixOf s.toList

/-- Python's `str.split(sep)` for a one-character separator (the code only
splits on "\n", "," and ":"). -/
def splitOnCharGo (sep : Char) : List Char → List Char → List String
  | [], acc => [String.mk acc.reverse]
  | c :: cs, acc =>
    if c == sep then String.mk acc.reverse :: splitOnCharGo sep cs []
    else splitOnCharGo sep cs (c :: acc)

/-- Python's `str.split(sep)` for a one-character separator. -/
def splitOnChar (sep : Char) (s : String) : List String :=
  splitOnCharGo sep s.toList []

/-- Value stored in a message's metadata map (the Python code only ever
stores booleans and error strings there). -/
inductive MetaVal
  | b (v : Bool)
  | s (v : String)
deriving DecidableEq, Repr

/-- Embeds `AgentMessage` from collaboration.py (the `timestamp` field is a
wall-clock value and is omitted; no verified property depends on it). -/
structure AgentMessage where
  agent_name : String
  content : String
  message_type : String
  metadata : List (String × MetaVal)
deriving DecidableEq, Repr

/-- One entry of the list returned by `get_context_for_agent`
(a Python dict with keys "agent", "response", "type"). -/
structure ContextEntry where
  agent : String
  response : String
  type : String
deriving DecidableEq, Repr

/-- Embeds `CollaborationSession` from collaboration.py. -/
structure CollaborationSession where
  query : String
  primary_agent : String
  supporting_agents : List String
  mode : String
  messages : List AgentMessage
  status : String
  final_response : Option String
deriving DecidableEq, Repr

/-- Embeds `CollaborationSession.add_message`. -/
def CollaborationSession.add_message (s : CollaborationSession) (m : AgentMessage) : CollaborationSession :=
  { s with messages := s.messages ++ [m] }

/-- Embeds `CollaborationSession.get_context_for_agent`: all messages whose
agent name differs from the given one, projected to (agent, response, type). -/
def CollaborationSession.get_context_for_agent (s : CollaborationSession) (agent_name : String) : List ContextEntry :=
  (s.messages.filter (fun m => m.agent_name != agent_name)).map
    (fun m => { agent := m.agent_name, response := m.content, type := m.message_type })

/-- Body of the two-or-more-messages branch of `synthesize_responses`:
`### name`, the content, and a divider after every message except the last
(Python's `enumerate(..., 1)` loop with `if i < len(messages)`). -/
def synthesisBody : List AgentMessage → String
  | [] => ""
  | [m] => "### " ++ m.agent_name ++ "\n\n" ++ m.content ++ "\n\n"
  | m :: rest => "### " ++ m.agent_name ++ "\n\n" ++ m.content ++ "\n\n" ++ "---\n\n" ++ synthesisBody rest

/-- Embeds `CollaborationSession.synthesize_responses`. -/
def CollaborationSession.synthesize_responses (s : CollaborationSession) : String :=
  match s.messages with
  | [] => "No responses available."
  | [m] => m.content
  | msgs =>
    "**Multi-Agent Collaboration Response**\n\n" ++ "Query: " ++ s.query ++ "\n\n" ++ "---\n\n"
      ++ synthesisBody msgs

/-- Result of a responder's `process` call: a Python dict read with
`result.get(key, default)`, so every field is optional. -/
structure ProcResult where
  response : Option String
  success : Option Bool
  has_code : Option Bool
  suggests_collaboration : Option Bool
deriving DecidableEq, Repr

/-- A responder object.  `agent_name?` models `hasattr(agent, 'agent_name')`
plus the attribute's value; `process?` models `hasattr(agent, 'process')`
plus the (possibly raising) bound method. -/
structure Agent where
  agent_name? : Option String
  process? : Option (String → String → Option (List ContextEntry) → Except String ProcResult)

/-- The responder lookup (`self.agents`, a dict keyed by agent key). -/
abbrev AgentMap := List (String × Agent)

/-- The optional knowledge retriever: `retrieve(query, agent_type)` which may
raise. -/
abbrev KnowledgeRetriever := String → String → Except String String

/-- Display name of an agent: `agent.agent_name if hasattr(agent, 'agent_name')
else agent_key.upper()`. -/
def displayName (agent : Agent) (agent_key : String) : String :=
  match agent.agent_name? with
  | some n => n
  | none => strToUpper agent_key

/-- Knowledge-context fetch: starts as `""`, then
`try: knowledge_context = knowledge_retriever.retrieve(...) except: pass`. -/
def getKnowledgeContext (kr : Option KnowledgeRetriever) (query agent_key : String) : String :=
  match kr with
  | none => ""
  | some r =>
    match r query agent_key with
    | Except.ok s => s
    | Except.error _ => ""

/-- The response message built in `execute_sequential_collaboration`
(metadata keys success, has_code, suggests_collaboration). -/
def mkResponseMessageSeq (agent_name : String) (result : ProcResult) : AgentMessage :=
  { agent_name := agent_name
  , content := result.response.getD "No response"
  , message_type := "response"
  , metadata := [("success", MetaVal.b (result.success.getD false)),
                 ("has_code", MetaVal.b (result.has_code.getD false)),
                 ("suggests_collaboration", MetaVal.b (result.suggests_collaboration.getD false))] }

/-- The response message built in `execute_parallel_collaboration` and
`execute_single_agent` (metadata keys success, has_code only). -/
def mkResponseMessagePar (agent_name : String) (result : ProcResult) : AgentMessage :=
  { agent_name := agent_name
  , content := result.response.getD "No response"
  , message_type := "response"
  , metadata := [("success", MetaVal.b (result.success.getD false)),
                 ("has_code", MetaVal.b (result.has_code.getD false))] }

/-- The `except Exception as e` message: content `"Error: " + str(e)`,
type `error`, metadata `{"error": str(e)}`. -/
def mkErrorMessage (agent_name e : String) : AgentMessage :=
  { agent_name := agent_name
  , content := "Error: " ++ e
  , message_type := "error"
  , metadata := [("error", MetaVal.s e)] }

/-- One iteration of the `for agent_key in agent_order` loop of
`execute_sequential_collaboration`: skip a key absent from the lookup,
fetch knowledge context, fetch the collaboration context (empty list is
passed as `None`), invoke `process` when present, append a response or
error message. -/
def seqStep (agents : AgentMap) (kr : Option KnowledgeRetriever)
    (session : CollaborationSession) (agent_key : String) : CollaborationSession :=
  match List.lookup agent_key agents with
  | none => session
  | some agent =>
    let agent_name := displayName agent agent_key
    let knowledge_context := getKnowledgeContext kr session.query agent_key
    let collaboration_context := session.get_context_for_agent agent_name
    match agent.process? with
    | none => session
    | some p =>
      match p session.query knowledge_context
          (if collaboration_context.isEmpty then none else some collaboration_context) with
      | Except.ok result => session.add_message (mkResponseMessageSeq agent_name result)
      | Except.error e => session.add_message (mkErrorMessage agent_name e)

/-- Embeds `CollaborationManager.execute_sequential_collaboration`. -/
def execute_sequential_collaboration (session : CollaborationSession)
    (agents : AgentMap) (kr : Option KnowledgeRetriever) : CollaborationSession :=
  let agent_order := session.primary_agent :: session.supporting_agents
  let s := agent_order.foldl (seqStep agents kr) session
  let s := { s with status := "completed" }
  { s with final_response := some s.synthesize_responses }

/-- One iteration of the `for agent_key in all_agents` loop of
`execute_parallel_collaboration`: identical to the sequential step except
that `collaboration_context=None` is always passed and the message metadata
has no suggests_collaboration key. -/
def parStep (agents : AgentMap) (kr : Option KnowledgeRetriever)
    (session : CollaborationSession) (agent_key : String) : CollaborationSession :=
  match List.lookup agent_key agents with
  | none => session
  | some agent =>
    let agent_name := displayName agent agent_key
    let knowledge_context := getKnowledgeContext kr session.query agent_key
    match agent.process? with
    | none => session
    | some p =>
      match p session.query knowledge_context none with
      | Except.ok result => session.add_message (mkResponseMessagePar agent_name result)
      | Except.error e => session.add_message (mkErrorMessage agent_name e)

/-- Embeds `CollaborationManager.execute_parallel_collaboration`. -/
def execute_parallel_collaboration (session : CollaborationSession)
    (agents : AgentMap) (kr : Option KnowledgeRetriever) : CollaborationSession :=
  let all_agents := session.primary_agent :: session.supporting_agents
  let s := all_agents.foldl (parStep agents kr) session
  let s := { s with status := "completed" }
  { s with final_response := some s.synthesize_responses }

/-- Embeds `CollaborationManager.execute_single_agent`: an unresolvable
primary sets status `failed` and returns at once; otherwise one
parallel-style step runs for the primary, then the session completes. -/
def execute_single_agent (session : CollaborationSession)
    (agents : AgentMap) (kr : Option KnowledgeRetriever) : CollaborationSession :=
  match List.lookup session.primary_agent agents with
  | none => { session with status := "failed" }
  | some agent =>
    let agent_name := displayName agent session.primary_agent
    let knowledge_context := getKnowledgeContext kr session.query session.primary_agent
    let s :=
      match agent.process? with
      | none => session
      | some p =>
        match p session.query knowledge_context none with
        | Except.ok result => session.add_message (mkResponseMessagePar agent_name result)
        | Except.error e => session.add_message (mkErrorMessage agent_name e)
    let s := { s with status := "completed" }
    { s with final_response := some s.synthesize_responses }

/-! ### Router (src/agent/router.py) -/

/-- One entry of `RouterAgent.available_agents`. -/
structure AgentInfo where
  name : String
  expertise : List String
  description : String
deriving DecidableEq, Repr

/-- Embeds `RouterAgent.available_agents` (declaration order preserved). -/
def available_agents : List (String × AgentInfo) :=
  [ ("sql",
     { name := "SQL Agent"
     , expertise := ["database queries", "SQL", "data retrieval", "schema", "postgresql",
                     "database design", "select", "join", "where"]
     , description := "Converts natural language to SQL queries and executes them" })
  , ("csharp",
     { name := "C# Agent"
     , expertise := ["c#", "csharp", ".net", "programming", "linq", "async", "await",
                     "code examples", "entity framework", "asp.net"]
     , description := "Provides C# and .NET programming help, code generation, and explanations" })
  , ("epicor",
     { name := "Epicor P21 Agent"
     , expertise := ["epicor", "p21", "erp", "export", "import", "p21 api", "p21 database",
                     "erp integration"]
     , description := "Specializes in Epicor P21 ERP system, exports, database, and API integration" })
  , ("general",
     { name := "General AI Chat Agent"
     , expertise := ["general", "explain", "what is", "how do", "help", "question",
                     "discussion", "brainstorm", "advice"]
     , description := "Handles general conversational queries, explanations, and questions that don't require specialized technical expertise" }) ]

/-- The routing decision dict returned by `route`, `_parse_routing_response`
and `_fallback_routing`. -/
structure Routing where
  primary_agent : String
  supporting_agents : List String
  collaboration_mode : String
  reasoning : String
  confidence : String
deriving DecidableEq, Repr

/-- Python's `needle in hay` substring test. -/
def containsSubstr (hay needle : String) : Bool :=
  let h := hay.toList
  let n := needle.toList
  (List.range (h.length + 1)).any (fun i => n.isPrefixOf (h.drop i))

/-- The per-agent keyword scores of `_fallback_routing`:
`for keyword in expertise: if keyword in query_lower: scores[agent] += 1`.
Each keyword contributes at most 1, via a plain substring test against the
lowercased query (the keyword itself keeps its original case). -/
def fallback_scores (query_lower : String) : List (String × Nat) :=
  available_agents.map
    (fun p => (p.1, (p.2.expertise.filter (fun kw => containsSubstr query_lower kw)).length))

/-- Embeds `RouterAgent._fallback_routing`.  `max(scores.items(), key=...)`
returns the first item attaining the maximum, i.e. ties are broken by
declaration order. -/
def fallback_routing (query : String) : Routing :=
  let query_lower := strToLower query
  let scores := fallback_scores query_lower
  let max_score := (scores.map Prod.snd).foldl Nat.max 0
  let primary :=
    if max_score == 0 then "general"
    else ((scores.find? (fun p => p.2 == max_score)).map Prod.fst).getD "general"
  let supporting := (scores.filter (fun p => p.2 > 0 && p.1 != primary)).map Prod.fst
  let mode :=
    if supporting.length == 0 then "single"
    else if supporting.length ≤ 2 then "sequential"
    else "sequential"
  { primary_agent := primary
  , supporting_agents := supporting
  , collaboration_mode := mode
  , reasoning := "Keyword matching: " ++ primary ++ " has "
      ++ toString ((List.lookup primary scores).getD 0) ++ " matches"
      ++ (if max_score == 0 then " (defaulted to general)" else "")
  , confidence := "low" }

/-- The backtick character (codepoint 96), written numerically. -/
def backtickChar : Char := Char.ofNat 96

/-- Python's `line.strip('\x60')`: remove all leading and trailing backticks. -/
def stripBackticks (s : String) : String :=
  String.mk (((s.toList.dropWhile (fun c => c == backtickChar)).reverse.dropWhile
    (fun c => c == backtickChar)).reverse)

/-- Python's `line.split(":", 1)[1]`: everything after the first colon.  Every
call site has already checked a `startswith` prefix ending in a colon, so a
colon is always present. -/
def afterFirstColon (line : String) : String :=
  String.mk ((line.toList.dropWhile (fun c => c != ':')).tail)

/-- The default parse result of `_parse_routing_response` before any line is
examined. -/
def defaultParseResult : Routing :=
  { primary_agent := "sql"
  , supporting_agents := []
  , collaboration_mode := "single"
  , reasoning := "Parsed from router response"
  , confidence := "medium" }

/-- One iteration of the `for line in lines` loop of
`_parse_routing_response`: strip whitespace then backticks, skip empty
lines, then dispatch on the labelled prefix; values not found in the
registry or the relevant enum are discarded. -/
def parseLine (r : Routing) (raw : String) : Routing :=
  let line := stripBackticks (strTrim raw)
  if line == "" then r
  else if strStartsWith line "PRIMARY:" then
    let agent := strToLower (strTrim (afterFirstColon line))
    if (List.lookup agent available_agents).isSome then { r with primary_agent := agent } else r
  else if strStartsWith line "SUPPORTING:" then
    let agents_str := strToLower (strTrim (afterFirstColon line))
    if agents_str != "none" && agents_str != "" then
      let agents := (splitOnChar ',' agents_str).map strTrim
      { r with supporting_agents := agents.filter (fun a => (List.lookup a available_agents).isSome) }
    else r
  else if strStartsWith line "MODE:" then
    let mode := strToLower (strTrim (afterFirstColon line))
    if mode == "single" || mode == "sequential" || mode == "parallel" then
      { r with collaboration_mode := mode }
    else r
  else if strStartsWith line "CONFIDENCE:" then
    let confidence := strToLower (strTrim (afterFirstColon line))
    if confidence == "high" || confidence == "medium" || confidence == "low" then
      { r with confidence := confidence }
    else r
  else if strStartsWith line "REASONING:" then
    { r with reasoning := strTrim (afterFirstColon line) }
  else r

/-- The line-parsing phase of `_parse_routing_response` (everything before
the keyword-fallback check). -/
def parse_fields (response_text : String) : Routing :=
  (splitOnChar '\n' (strTrim response_text)).foldl parseLine defaultParseResult

/-- Embeds `RouterAgent._parse_routing_response`: parse the lines, then run
keyword fallback when `result["primary_agent"] in ["sql", "general"] and
result["confidence"] == "medium"`. -/
def parse_routing_response (response_text query : String) : Routing :=
  let result := parse_fields response_text
  if (result.primary_agent == "sql" || result.primary_agent == "general")
      && result.confidence == "medium" then
    fallback_routing query
  else
    result

/-- Embeds `RouterAgent.route`.  The single external reasoning call is
modelled as an `Except String String` value (response text, or the raised
exception's text). -/
def route (reasoning_call : Except String String) (query : String) : Routing :=
  match reasoning_call with
  | Except.ok response_text => parse_routing_response response_text query
  | Except.error e =>
    { primary_agent := "general"
    , supporting_agents := []
    , collaboration_mode := "single"
    , reasoning := "Error in routing, defaulting to general agent: " ++ e
    , confidence := "low" }

/-! ### Orchestrator (src/agent/multi_agent_orchestrator.py) -/

/-- Embeds the `MultiAgentResult` dataclass.  The serialized
`collaboration_session` dict is represented by the session itself. -/
structure MultiAgentResult where
  success : Bool
  mode : String
  agents_used : List String
  routing_confidence : String
  query : String
  collaboration_session : Option CollaborationSession
  final_response : Option String
  sql : Option String
  sql_results : Option String
  csharp_response : Option String
  code_example : Option String
  epicor_response : Option String
  routing_error : Option String
  execution_error : Option String
deriving DecidableEq, Repr

/-- One iteration of the extraction loop in `_build_result`; the accumulator
is (sql_response, csharp_response, epicor_response).  The inner
"\x60\x60\x60sql" check reassigns `sql_response = msg.content`, which it
already is, so that branch is a no-op and is folded into the first arm. -/
def extractStep (acc : Option String × Option String × Option String)
    (msg : AgentMessage) : Option String × Option String × Option String :=
  let up := strToUpper msg.agent_name
  if containsSubstr up "SQL" then
    (some msg.content, acc.2.1, acc.2.2)
  else if containsSubstr up "C#" || containsSubstr up "CSHARP" then
    (acc.1, some msg.content, acc.2.2)
  else if containsSubstr up "EPICOR" || containsSubstr up "P21" then
    (acc.1, acc.2.1, some msg.content)
  else acc

/-- Embeds `MultiAgentOrchestrator._build_result`. -/
def build_result (session : CollaborationSession) (routing : Routing) : MultiAgentResult :=
  let agents_used := session.primary_agent :: session.supporting_agents
  let ex := session.messages.foldl extractStep (none, none, none)
  { success := session.status == "completed"
  , mode := session.mode
  , agents_used := agents_used
  , routing_confidence := routing.confidence
  , query := session.query
  , collaboration_session := some session
  , final_response := session.final_response
  , sql := ex.1
  , sql_results := none
  , csharp_response := ex.2.1
  , code_example := none
  , epicor_response := ex.2.2
  , routing_error := none
  , execution_error := none }

/-- Embeds `CollaborationManager.create_session` (the timestamp-keyed
`active_sessions` registry is bookkeeping only and is not modelled). -/
def create_session (query : String) (routing : Routing) : CollaborationSession :=
  { query := query
  , primary_agent := routing.primary_agent
  , supporting_agents := routing.supporting_agents
  , mode := routing.collaboration_mode
  , messages := []
  , status := "active"
  , final_response := none }

/-- The mode dispatch inside `process_query`'s try block; a mode matching
none of the three strings leaves the session untouched. -/
def dispatch (mode : String) (session : CollaborationSession)
    (agents : AgentMap) (kr : Option KnowledgeRetriever) : CollaborationSession :=
  if mode == "single" then execute_single_agent session agents kr
  else if mode == "sequential" then execute_sequential_collaboration session agents kr
  else if mode == "parallel" then execute_parallel_collaboration session agents kr
  else session

/-- Embeds `MultiAgentOrchestrator.process_query`.  `reasoning_call` models
the router's external reasoning call; `boundary_fault` models an exception
raised inside process_query's try block by something other than the modelled
calls (e.g. a status callback) — `some e` means such an exception with text
`e` interrupts execution and is caught by the `except` arm, which builds the
error result from the already-computed routing decision. -/
def process_query (reasoning_call : Except String String) (agents : AgentMap)
    (kr : Option KnowledgeRetriever) (boundary_fault : Option String)
    (query : String) : MultiAgentResult :=
  let routing := route reasoning_call query
  let session := create_session query routing
  match boundary_fault with
  | some e =>
    { success := false
    , mode := routing.collaboration_mode
    , agents_used := [routing.primary_agent]
    , routing_confidence := routing.confidence
    , query := query
    , collaboration_session := none
    , final_response := none
    , sql := none
    , sql_results := none
    , csharp_response := none
    , code_example := none
    , epicor_response := none
    , routing_error := none
    , execution_error := some e }
  | none => build_result (dispatch routing.collaboration_mode session agents kr) routing

/-! ### Auxiliary predicates used in theorem statements -/

/-- Two responders with the same visible name whose `process` methods cannot
be told apart by any call that passes `collaboration_context=None`. -/
def agentNullAgree (a b : Agent) : Prop :=
  a.agent_name? = b.agent_name? ∧
  ((a.process? = none ∧ b.process? = none) ∨
    (∃ p q, a.process? = some p ∧ b.process? = some q ∧
      ∀ query kc, p query kc none = q query kc none))

/-- Pointwise `agentNullAgree` between two responder lookups with the same
keys in the same order. -/
def AgreeOnNullCtx : AgentMap → AgentMap → Prop
  | [], [] => True
  | x :: t1, y :: t2 => x.1 = y.1 ∧ agentNullAgree x.2 y.2 ∧ AgreeOnNullCtx t1 t2
  | _, _ => False

/-- Well-formedness of a routing decision as stated by the spec's data-model
section: supporting list duplicate-free, primary not in it, and empty
supporting forces mode `single`. -/
def RoutingWellFormed (r : Routing) : Prop :=
  r.supporting_agents.Nodup ∧
  r.primary_agent ∉ r.supporting_agents ∧
  (r.supporting_agents = [] → r.collaboration_mode = "single")

/-! ### Concrete fixtures for counterexamples and witnesses -/

/-- A session whose primary agent key resolves in no lookup used with it. -/
def ghostSession : CollaborationSession :=
  { query := "q"
  , primary_agent := "ghost"
  , supporting_agents := []
  , mode := "sequential"
  , messages := []
  , status := "active"
  , final_response := none }

/-- A responder whose response text reports whether its invocation received a
collaboration context (and of which length). -/
def echoAgent : Agent :=
  { agent_name? := some "C# Agent"
  , process? := some (fun _ _ cc =>
      Except.ok
        { response := some (match cc with
            | none => "NOCTX"
            | some l => "CTX:" ++ toString l.length)
        , success := some true
        , has_code := some false
        , suggests_collaboration := none }) }

/-- A second responder that behaves exactly like `echoAgent` on every call
with a null collaboration context but answers differently when given one. -/
def echoAgentVariant : Agent :=
  { agent_name? := some "C# Agent"
  , process? := some (fun _ _ cc =>
      Except.ok
        { response := some (match cc with
            | none => "NOCTX"
            | some l => "VARIANT:" ++ toString l.length)
        , success := some true
        , has_code := some false
        , suggests_collaboration := none }) }

/-- A sequential session listing the same agent twice (primary also in
supporting) — reachable because the parse path never deduplicates the
supporting list nor removes the primary from it. -/
def dupSession : CollaborationSession :=
  { query := "q"
  , primary_agent := "csharp"
  , supporting_agents := ["csharp"]
  , mode := "sequential"
  , messages := []
  , status := "active"
  , final_response := none }

/-- The dict a well-behaved responder returns. -/
def okResult (r : String) : ProcResult :=
  { response := some r
  , success := some true
  , has_code := some false
  , suggests_collaboration := some false }

/-- A responder that always returns the fixed response `r`. -/
def okAgent (n r : String) : Agent :=
  { agent_name? := some n
  , process? := some (fun _ _ _ => Except.ok (okResult r)) }

/-- A responder whose `process` call always raises with message `e`. -/
def raisingAgent (n e : String) : Agent :=
  { agent_name? := some n
  , process? := some (fun _ _ _ => Except.error e) }

/-- A responder present in the lookup but carrying no `process` attribute. -/
def noProcessAgent : Agent :=
  { agent_name? := some "G", process? := none }

/-- `ghostSession` re-pointed at the process-less responder's key "g". -/
def ghostSessionG : CollaborationSession :=
  { ghostSession with primary_agent := "g" }

/-- A fresh sequential session over a query, primary key and supporting keys. -/
def seqSession (q k1 : String) (ks : List String) : CollaborationSession :=
  { query := q
  , primary_agent := k1
  , supporting_agents := ks
  , mode := "sequential"
  , messages := []
  , status := "active"
  , final_response := none }

/-! ### Helper lemmas -/

/-- A sequential loop iteration at most appends messages; every other session
field is untouched. -/
theorem seqStep_shape (agents : AgentMap) (kr : Option KnowledgeRetriever)
    (s : CollaborationSession) (k : String) :
    ∃ t, seqStep agents kr s k = { s with messages := s.messages ++ t } := by
  unfold seqStep
  split
  · exact ⟨[], by simp⟩
  · dsimp only
    split
    · exact ⟨[], by simp⟩
    · split
      · exact ⟨_, rfl⟩
      · exact ⟨_, rfl⟩

/-- A parallel loop iteration at most appends messages. -/
theorem parStep_shape (agents : AgentMap) (kr : Option KnowledgeRetriever)
    (s : CollaborationSession) (k : String) :
    ∃ t, parStep agents kr s k = { s with messages := s.messages ++ t } := by
  unfold parStep
  split
  · exact ⟨[], by simp⟩
  · dsimp only
    split
    · exact ⟨[], by simp⟩
    · split
      · exact ⟨_, rfl⟩
      · exact ⟨_, rfl⟩

/-- Folding any message-appending step over a key list at most appends
messages. -/
theorem foldl_shape (f : CollaborationSession → String → CollaborationSession)
    (hf : ∀ s k, ∃ t, f s k = { s with messages := s.messages ++ t }) :
    ∀ (l : List String) (s : CollaborationSession),
      ∃ t, l.foldl f s = { s with messages := s.messages ++ t } := by
  intro l
  induction l with
  | nil => intro s; exact ⟨[], by simp⟩
  | cons k ks ih =>
    intro s
    obtain ⟨t1, h1⟩ := hf s k
    obtain ⟨t2, h2⟩ := ih (f s k)
    rw [h1] at h2
    refine ⟨t1 ++ t2, ?_⟩
    rw [List.foldl_cons, h1, h2]
    simp [List.append_assoc]

/-- Sequential execution preserves every session field except messages,
status and final_response, and always stamps status `completed`. -/
theorem execute_sequential_fields (s : CollaborationSession) (agents : AgentMap)
    (kr : Option KnowledgeRetriever) :
    (execute_sequential_collaboration s agents kr).primary_agent = s.primary_agent ∧
    (execute_sequential_collaboration s agents kr).supporting_agents = s.supporting_agents ∧
    (execute_sequential_collaboration s agents kr).mode = s.mode ∧
    (execute_sequential_collaboration s agents kr).query = s.query ∧
    (execute_sequential_collaboration s agents kr).status = "completed" := by
  obtain ⟨t, h⟩ := foldl_shape (seqStep agents kr) (seqStep_shape agents kr)
    (s.primary_agent :: s.supporting_agents) s
  unfold execute_sequential_collaboration
  dsimp only
  rw [h]
  exact ⟨rfl, rfl, rfl, rfl, rfl⟩

/-- Parallel execution preserves every session field except messages, status
and final_response, and always stamps status `completed`. -/
theorem execute_parallel_fields (s : CollaborationSession) (agents : AgentMap)
    (kr : Option KnowledgeRetriever) :
    (execute_parallel_collaboration s agents kr).primary_agent = s.primary_agent ∧
    (execute_parallel_collaboration s agents kr).supporting_agents = s.supporting_agents ∧
    (execute_parallel_collaboration s agents kr).mode = s.mode ∧
    (execute_parallel_collaboration s agents kr).query = s.query ∧
    (execute_parallel_collaboration s agents kr).status = "completed" := by
  obtain ⟨t, h⟩ := foldl_shape (parStep agents kr) (parStep_shape agents kr)
    (s.primary_agent :: s.supporting_agents) s
  unfold execute_parallel_collaboration
  dsimp only
  rw [h]
  exact ⟨rfl, rfl, rfl, rfl, rfl⟩

/-- Single execution preserves the identity fields of the session. -/
theorem execute_single_fields (s : CollaborationSession) (agents : AgentMap)
    (kr : Option KnowledgeRetriever) :
    (execute_single_agent s agents kr).primary_agent = s.primary_agent ∧
    (execute_single_agent s agents kr).supporting_agents = s.supporting_agents ∧
    (execute_single_agent s agents kr).mode = s.mode ∧
    (execute_single_agent s agents kr).query = s.query := by
  unfold execute_single_agent
  split
  · exact ⟨rfl, rfl, rfl, rfl⟩
  · dsimp only
    split
    · exact ⟨rfl, rfl, rfl, rfl⟩
    · split
      · exact ⟨rfl, rfl, rfl, rfl⟩
      · exact ⟨rfl, rfl, rfl, rfl⟩

/-- C1 (counterexample): a sequential session whose primary agent "ghost" is
absent from the (empty) responder lookup does not fail: the strategy skips
the unresolvable primary, terminates with status `completed` and an empty
message log, and the Result projection built from it has success = true —
refuting the claim that all three strategies set status `failed` and yield
success = false. -/
theorem C1_counterexample :
    (execute_sequential_collaboration ghostSession [] none).status = "completed" ∧
    (execute_sequential_collaboration ghostSession [] none).status ≠ "failed" ∧
    (execute_sequential_collaboration ghostSession [] none).messages = [] ∧
    (build_result (execute_sequential_collaboration ghostSession [] none)
        defaultParseResult).success = true := by
  exact ⟨rfl, by decide, rfl, by decide⟩

/-- C1 (amended): when the primary agent is not present in the responder
lookup, only the single-agent strategy fails: it sets status `failed` before
invoking any responder, appends no messages, and the Result projection has
success = false.  The sequential and parallel strategies instead skip the
unresolvable primary and terminate with status `completed`. -/
theorem C1_unknown_primary_amended (s : CollaborationSession) (agents : AgentMap)
    (kr : Option KnowledgeRetriever) (routing : Routing)
    (h : List.lookup s.primary_agent agents = none) :
    execute_single_agent s agents kr = { s with status := "failed" } ∧
    (build_result (execute_single_agent s agents kr) routing).success = false ∧
    (execute_sequential_collaboration s agents kr).status = "completed" ∧
    (execute_parallel_collaboration s agents kr).status = "completed" := by
  have h1 : execute_single_agent s agents kr = { s with status := "failed" } := by
    unfold execute_single_agent
    rw [h]
  refine ⟨h1, ?_, rfl, rfl⟩
  show ((execute_single_agent s agents kr).status == "completed") = false
  rw [h1]
  show (("failed" : String) == "completed") = false
  decide

/-- C1 witness: the amended theorem applied to a concrete session with
primary "ghost" and an empty lookup. -/
theorem C1_unknown_primary_amended_witness :
    execute_single_agent ghostSession [] none = { ghostSession with status := "failed" } ∧
    (build_result (execute_single_agent ghostSession [] none) defaultParseResult).success = false ∧
    (execute_sequential_collaboration ghostSession [] none).status = "completed" ∧
    (execute_parallel_collaboration ghostSession [] none).status = "completed" :=
  C1_unknown_primary_amended ghostSession [] none defaultParseResult rfl

/-- Under `AgreeOnNullCtx` the two lookups have the same keys and return
pointwise `agentNullAgree`-related responders. -/
theorem lookup_agree (m1 m2 : AgentMap) (h : AgreeOnNullCtx m1 m2) (k : String) :
    (List.lookup k m1 = none ∧ List.lookup k m2 = none) ∨
    (∃ a b, List.lookup k m1 = some a ∧ List.lookup k m2 = some b ∧ agentNullAgree a b) := by
  induction m1 generalizing m2 with
  | nil =>
    cases m2 with
    | nil => exact Or.inl ⟨rfl, rfl⟩
    | cons y t2 => exact absurd h (by simp [AgreeOnNullCtx])
  | cons x t1 ih =>
    cases m2 with
    | nil => exact absurd h (by simp [AgreeOnNullCtx])
    | cons y t2 =>
      obtain ⟨x1, x2⟩ := x
      obtain ⟨y1, y2⟩ := y
      obtain ⟨hk, ha, ht⟩ := h
      dsimp only at hk
      cases hkey : k == x1 with
      | true =>
        refine Or.inr ⟨x2, y2, ?_, ?_, ha⟩
        · simp [List.lookup, hkey]
        · simp [List.lookup, ← hk, hkey]
      | false =>
        rcases ih t2 ht with ⟨h1, h2⟩ | ⟨a, b, h1, h2, hab⟩
        · exact Or.inl ⟨by simp [List.lookup, hkey, h1], by simp [List.lookup, ← hk, hkey, h2]⟩
        · exact Or.inr ⟨a, b, by simp [List.lookup, hkey, h1],
            by simp [List.lookup, ← hk, hkey, h2], hab⟩

/-- A parallel loop iteration cannot distinguish two responder lookups that
agree on all null-context calls — i.e. it only ever passes a null
collaboration context. -/
theorem parStep_agree (m1 m2 : AgentMap) (h : AgreeOnNullCtx m1 m2)
    (kr : Option KnowledgeRetriever) (s : CollaborationSession) (k : String) :
    parStep m1 kr s k = parStep m2 kr s k := by
  rcases lookup_agree m1 m2 h k with ⟨h1, h2⟩ | ⟨a, b, h1, h2, hn, hp⟩
  · unfold parStep
    rw [h1, h2]
  · have hdn : displayName a k = displayName b k := by
      unfold displayName
      rw [hn]
    unfold parStep
    rw [h1, h2]
    dsimp only
    rcases hp with ⟨hpa, hpb⟩ | ⟨p, q, hpa, hpb, hagree⟩
    · rw [hpa, hpb]
    · rw [hpa, hpb]
      dsimp only
      rw [hagree s.query (getKnowledgeContext kr s.query k), hdn]

/-- Folding the parallel step over any key list cannot distinguish two
responder lookups that agree on all null-context calls. -/
theorem parFold_agree (m1 m2 : AgentMap) (h : AgreeOnNullCtx m1 m2)
    (kr : Option KnowledgeRetriever) :
    ∀ (l : List String) (s : CollaborationSession),
      l.foldl (parStep m1 kr) s = l.foldl (parStep m2 kr) s := by
  intro l
  induction l with
  | nil => intro s; rfl
  | cons k ks ih =>
    intro s
    rw [List.foldl_cons, parStep_agree m1 m2 h kr s k]
    exact ih _

/-- C2 (counterexample): a reachable sequential session that lists the same
agent key as primary and as its sole supporting agent (the parse path never
deduplicates).  The probe responder answers "NOCTX" when its
collaboration_context argument is null.  The second invocation happens after
one message has already been recorded, yet both recorded responses read
"NOCTX": the second invocation's context was null, not the one-message list
the claim requires, because `get_context_for_agent` filters out messages
bearing the invoked agent's own display name. -/
theorem C2_counterexample :
    ((execute_sequential_collaboration dupSession [("csharp", echoAgent)] none).messages.map
        AgentMessage.content) = ["NOCTX", "NOCTX"] ∧
    ((execute_sequential_collaboration dupSession [("csharp", echoAgent)] none).messages.map
        AgentMessage.content) ≠ ["NOCTX", "CTX:1"] := by
  exact ⟨by decide, by decide⟩

/-- C2 (amended): under parallel mode the collaborationContext passed to
every responder invocation is null — stated extensionally: the parallel
strategy cannot distinguish responder lookups that agree on all
null-context calls.  Under sequential mode the context fetched before the
N-th invocation is `get_context_for_agent`, i.e. the prior messages whose
agent display name differs from the invoked agent's; when no prior message
bears that name (in particular whenever all invoked agents have distinct
display names) this is exactly the full list of previously recorded
messages, errors included. -/
theorem C2_context_isolation_amended :
    (∀ (s : CollaborationSession) (m1 m2 : AgentMap) (kr : Option KnowledgeRetriever),
        AgreeOnNullCtx m1 m2 →
        execute_parallel_collaboration s m1 kr = execute_parallel_collaboration s m2 kr) ∧
    (∀ (s : CollaborationSession) (name : String),
        (∀ m ∈ s.messages, m.agent_name ≠ name) →
        s.get_context_for_agent name =
          s.messages.map (fun m =>
            { agent := m.agent_name, response := m.content, type := m.message_type })) := by
  constructor
  · intro s m1 m2 kr h
    simp only [execute_parallel_collaboration]
    rw [parFold_agree m1 m2 h kr]
  · intro s name h
    unfold CollaborationSession.get_context_for_agent
    rw [List.filter_eq_self.mpr]
    intro m hm
    simpa using h m hm

/-- C2 witness: the amended theorem applied to concrete inputs — two probe
responders that differ only on non-null contexts yield identical parallel
runs, and the context characterization instantiated on an empty log. -/
theorem C2_context_isolation_amended_witness :
    execute_parallel_collaboration dupSession [("csharp", echoAgent)] none =
      execute_parallel_collaboration dupSession [("csharp", echoAgentVariant)] none ∧
    ghostSession.get_context_for_agent "x" =
      ghostSession.messages.map (fun m =>
        { agent := m.agent_name, response := m.content, type := m.message_type }) := by
  constructor
  · exact C2_context_isolation_amended.1 dupSession [("csharp", echoAgent)]
      [("csharp", echoAgentVariant)] none
      ⟨rfl, ⟨rfl, Or.inr ⟨_, _, rfl, rfl, fun _ _ => rfl⟩⟩, trivial⟩
  · exact C2_context_isolation_amended.2 ghostSession "x"
      (by intro m hm; simp [ghostSession] at hm)

/-- C3: in a sequential run with primary k1 and supporting [k2, k3] where
k2's responder raises with message e while k1 and k3 answer normally, the
failure is isolated: exactly one error-kind message carrying "Error: " ++ e
is recorded for k2's agent, the run continues to k3, the normal messages of
k1's and k3's agents are recorded in order, and the session still terminates
with status `completed`. -/
theorem C3_failure_isolation (q e r1 r3 k1 k2 k3 n1 n2 n3 : String)
    (kr : Option KnowledgeRetriever) (h21 : (k2 == k1) = false)
    (h31 : (k3 == k1) = false) (h32 : (k3 == k2) = false) :
    (execute_sequential_collaboration (seqSession q k1 [k2, k3])
        [(k1, okAgent n1 r1), (k2, raisingAgent n2 e), (k3, okAgent n3 r3)] kr).status
      = "completed" ∧
    (execute_sequential_collaboration (seqSession q k1 [k2, k3])
        [(k1, okAgent n1 r1), (k2, raisingAgent n2 e), (k3, okAgent n3 r3)] kr).messages
      = [ mkResponseMessageSeq n1 (okResult r1)
        , mkErrorMessage n2 e
        , mkResponseMessageSeq n3 (okResult r3) ] := by
  refine ⟨rfl, ?_⟩
  simp only [execute_sequential_collaboration, seqSession, List.foldl_cons, List.foldl_nil,
    seqStep, List.lookup, beq_self_eq_true, h21, h31, h32, okAgent, raisingAgent, displayName,
    CollaborationSession.add_message, CollaborationSession.get_context_for_agent]
  rfl

/-- C3 witness: the failure-isolation theorem applied to concrete keys,
display names and texts. -/
theorem C3_failure_isolation_witness :
    (execute_sequential_collaboration (seqSession "q" "p" ["s1", "s2"])
        [("p", okAgent "P" "ok1"), ("s1", raisingAgent "S1" "boom"),
         ("s2", okAgent "S2" "ok2")] none).status = "completed" ∧
    (execute_sequential_collaboration (seqSession "q" "p" ["s1", "s2"])
        [("p", okAgent "P" "ok1"), ("s1", raisingAgent "S1" "boom"),
         ("s2", okAgent "S2" "ok2")] none).messages
      = [ mkResponseMessageSeq "P" (okResult "ok1")
        , mkErrorMessage "S1" "boom"
        , mkResponseMessageSeq "S2" (okResult "ok2") ] :=
  C3_failure_isolation "q" "boom" "ok1" "ok2" "p" "s1" "s2" "P" "S1" "S2" none
    (by decide) (by decide) (by decide)

/-- C4 (counterexample): the fallback trigger is not "primary equals the
designated generic/default agent": it fires for primary "sql" as well as
"general".  A response parsed as primary "sql" with confidence medium is
discarded in favour of the keyword fallback (which picks "general" for the
query "explain"), and a response parsed as primary "general" with confidence
medium is likewise discarded (the fallback picks "csharp" for the query
"linq") — so under either reading of "the designated agent" there is a
parsed result that the claim says is returned as-is but that the code
replaces. -/
theorem C4_counterexample :
    (parse_routing_response "PRIMARY: sql\nCONFIDENCE: medium" "explain").primary_agent
      = "general" ∧
    (parse_routing_response "PRIMARY: sql\nCONFIDENCE: medium" "explain").primary_agent
      ≠ "sql" ∧
    (parse_routing_response "PRIMARY: general\nCONFIDENCE: medium" "linq").primary_agent
      = "csharp" ∧
    (parse_routing_response "PRIMARY: general\nCONFIDENCE: medium" "linq").primary_agent
      ≠ "general" :=
  ⟨by decide, by decide, by decide, by decide⟩

/-- C4 (amended): after parsing, the keyword fallback replaces the parsed
result exactly when the parsed primary agent is "sql" or "general" (the
parse default or the generic agent) and the confidence resolved to
"medium"; in every other case the parsed result is returned as-is. -/
theorem C4_fallback_trigger_amended (response_text query : String) :
    parse_routing_response response_text query =
      (if ((parse_fields response_text).primary_agent = "sql" ∨
            (parse_fields response_text).primary_agent = "general") ∧
          (parse_fields response_text).confidence = "medium"
        then fallback_routing query
        else parse_fields response_text) := by
  simp [parse_routing_response, Bool.and_eq_true, Bool.or_eq_true, beq_iff_eq]

/-- C5 (counterexample): fallback scoring is a per-keyword case-preserved
substring test, not a whole-word occurrence count, and supporting agents are
listed in registry declaration order, not by descending score.  The query
"interpret" contains the keyword "erp" as a substring, so the epicor agent
scores 1 and becomes primary, although the query contains no whole-word
keyword at all (the claim predicts the all-zero default "general").  For
"select join where linq epicor p21" the scores are sql 3, csharp 1,
epicor 2: the claim predicts supporting ["epicor", "csharp"] by descending
score, but the code returns the declaration order ["csharp", "epicor"]. -/
theorem C5_counterexample :
    (fallback_routing "interpret").primary_agent = "epicor" ∧
    (fallback_routing "interpret").primary_agent ≠ "general" ∧
    (fallback_routing "select join where linq epicor p21").supporting_agents
      = ["csharp", "epicor"] ∧
    (fallback_routing "select join where linq epicor p21").supporting_agents
      ≠ ["epicor", "csharp"] :=
  ⟨by decide, by decide, by decide, by decide⟩

/-- The seed of a `Nat.max` fold never exceeds the fold's value. -/
theorem le_foldl_max_init (l : List Nat) (a : Nat) : a ≤ l.foldl Nat.max a := by
  induction l generalizing a with
  | nil => exact le_refl a
  | cons x xs ih => exact le_trans (Nat.le_max_left a x) (ih (Nat.max a x))

/-- Every member of the list is bounded by the `Nat.max` fold. -/
theorem mem_le_foldl_max (l : List Nat) (a : Nat) : ∀ x ∈ l, x ≤ l.foldl Nat.max a := by
  induction l generalizing a with
  | nil => intro x hx; cases hx
  | cons y ys ih =>
    intro x hx
    rcases List.mem_cons.mp hx with rfl | hx
    · exact le_trans (Nat.le_max_right a x) (le_foldl_max_init ys (Nat.max a x))
    · exact ih (Nat.max a y) x hx

/-- The value of a `Nat.max` fold is the seed or a member of the list. -/
theorem foldl_max_mem (l : List Nat) (a : Nat) :
    l.foldl Nat.max a = a ∨ l.foldl Nat.max a ∈ l := by
  induction l generalizing a with
  | nil => exact Or.inl rfl
  | cons x xs ih =>
    rcases ih (Nat.max a x) with h | h
    · have hc : Nat.max a x = a ∨ Nat.max a x = x := by
        rcases Nat.le_total a x with h2 | h2
        · exact Or.inr (Nat.max_eq_right h2)
        · exact Or.inl (Nat.max_eq_left h2)
      rcases hc with h2 | h2
      · exact Or.inl (by rw [List.foldl_cons, h, h2])
      · exact Or.inr (by rw [List.foldl_cons, h, h2]; exact List.mem_cons_self x xs)
    · exact Or.inr (List.mem_cons_of_mem x h)

/-- `List.find?` returns the first satisfying element: the list splits into a
prefix of elements falsifying the predicate, the found element, and a tail. -/
theorem find?_eq_some_split {a : Type} (p : a → Bool) :
    ∀ (l : List a) (x : a), l.find? p = some x →
      ∃ pre post, l = pre ++ x :: post ∧ ∀ y ∈ pre, p y = false := by
  intro l
  induction l with
  | nil => intro x h; simp at h
  | cons b t ih =>
    intro x h
    cases hp : p b with
    | true =>
      rw [List.find?_cons_of_pos _ hp] at h
      simp only [Option.some.injEq] at h
      subst h
      exact ⟨[], t, rfl, by simp⟩
    | false =>
      rw [List.find?_cons_of_neg _ (by simp [hp])] at h
      obtain ⟨pre, post, heq, hall⟩ := ih x h
      refine ⟨b :: pre, post, by rw [heq, List.cons_append], ?_⟩
      intro y hy
      rcases List.mem_cons.mp hy with rfl | hy
      · exact hp
      · exact hall y hy

/-- The mode computation of `_fallback_routing` collapses to "single" iff the
supporting list is empty (its two non-empty branches both say "sequential"). -/
theorem mode_collapse (sup : List String) :
    (if sup.length == 0 then "single"
     else if sup.length ≤ 2 then "sequential" else "sequential")
    = (if sup = [] then "single" else "sequential") := by
  cases sup <;> simp

/-- C5 (amended): keyword fallback scores each agent by the number of its
registry keywords (kept in their original case) that occur as substrings of
the lowercased query — each keyword counts at most once and no word
boundaries are required; the primary agent is the first declared agent
attaining the maximal score, or "general" when all scores are zero; the
supporting agents are precisely the other positive scorers in registry
declaration order (not sorted by score); mode is "single" exactly when
supporting is empty and "sequential" otherwise; and confidence is always
"low".  The tie-break clause is the score-list decomposition: the chosen
primary is an entry attaining the maximal score whose every predecessor in
declaration order scores strictly less — i.e. the first declared maximal
scorer wins. -/
theorem C5_keyword_fallback_amended (query : String) :
    (fallback_routing query).confidence = "low" ∧
    (fallback_routing query).collaboration_mode =
      (if (fallback_routing query).supporting_agents = [] then "single" else "sequential") ∧
    fallback_scores (strToLower query) =
      available_agents.map (fun p =>
        (p.1, (p.2.expertise.filter (fun kw => containsSubstr (strToLower query) kw)).length)) ∧
    (fallback_routing query).supporting_agents =
      ((fallback_scores (strToLower query)).filter
        (fun p => p.2 > 0 && p.1 != (fallback_routing query).primary_agent)).map Prod.fst ∧
    ((∀ x ∈ fallback_scores (strToLower query), x.2 = 0) →
      (fallback_routing query).primary_agent = "general") ∧
    (¬ (∀ x ∈ fallback_scores (strToLower query), x.2 = 0) →
      ∃ pre x post, fallback_scores (strToLower query) = pre ++ x :: post ∧
        x.1 = (fallback_routing query).primary_agent ∧
        (∀ y ∈ fallback_scores (strToLower query), y.2 ≤ x.2) ∧
        (∀ y ∈ pre, y.2 < x.2)) := by
  have hM0 : (((fallback_scores (strToLower query)).map Prod.snd).foldl Nat.max 0 = 0) →
      ∀ x ∈ fallback_scores (strToLower query), x.2 = 0 := by
    intro h x hx
    have hle := mem_le_foldl_max ((fallback_scores (strToLower query)).map Prod.snd) 0 x.2
      (List.mem_map_of_mem Prod.snd hx)
    omega
  have hall0 : (∀ x ∈ fallback_scores (strToLower query), x.2 = 0) →
      (((fallback_scores (strToLower query)).map Prod.snd).foldl Nat.max 0 = 0) := by
    intro h
    rcases foldl_max_mem ((fallback_scores (strToLower query)).map Prod.snd) 0 with h1 | h1
    · exact h1
    · obtain ⟨x, hx, hx2⟩ := List.mem_map.mp h1
      rw [← hx2]
      exact h x hx
  unfold fallback_routing
  dsimp only
  refine ⟨rfl, mode_collapse _, rfl, rfl, ?_, ?_⟩
  · intro hz
    have hM : ((fallback_scores (strToLower query)).map Prod.snd).foldl Nat.max 0 = 0 :=
      hall0 hz
    rw [hM]
    rfl
  · intro hnz
    have hMne : ((fallback_scores (strToLower query)).map Prod.snd).foldl Nat.max 0 ≠ 0 :=
      fun h0 => hnz (hM0 h0)
    have hmem : ((fallback_scores (strToLower query)).map Prod.snd).foldl Nat.max 0
        ∈ (fallback_scores (strToLower query)).map Prod.snd := by
      rcases foldl_max_mem ((fallback_scores (strToLower query)).map Prod.snd) 0 with h | h
      · exact absurd h hMne
      · exact h
    obtain ⟨x, hx, hx2⟩ := List.mem_map.mp hmem
    cases hf : (fallback_scores (strToLower query)).find?
        (fun p => p.2 == ((fallback_scores (strToLower query)).map Prod.snd).foldl Nat.max 0) with
    | none =>
      exfalso
      have hc := List.find?_eq_none.mp hf x hx
      simp [hx2] at hc
    | some w =>
      have hw2 : w.2 = ((fallback_scores (strToLower query)).map Prod.snd).foldl Nat.max 0 := by
        have hp := List.find?_some hf
        simpa [beq_iff_eq] using hp
      have hb : ((((fallback_scores (strToLower query)).map Prod.snd).foldl Nat.max 0) == 0)
          = false := by
        simp [hMne]
      obtain ⟨pre, post, hsplit, hprefalse⟩ := find?_eq_some_split _ _ _ hf
      refine ⟨pre, w, post, hsplit, ?_, ?_, ?_⟩
      · rw [hb]
        simp
      · intro y hy
        have hle := mem_le_foldl_max ((fallback_scores (strToLower query)).map Prod.snd) 0 y.2
          (List.mem_map_of_mem Prod.snd hy)
        rw [← hw2] at hle
        exact hle
      · intro y hy
        have hymem : y ∈ fallback_scores (strToLower query) := by
          rw [hsplit]
          exact List.mem_append_left _ hy
        have hyle := mem_le_foldl_max ((fallback_scores (strToLower query)).map Prod.snd) 0 y.2
          (List.mem_map_of_mem Prod.snd hymem)
        have hyne : y.2 ≠ ((fallback_scores (strToLower query)).map Prod.snd).foldl Nat.max 0 := by
          have hfy := hprefalse y hy
          simpa [beq_iff_eq] using hfy
        rw [hw2]
        omega

/-- C5 witness: the amended theorem applied at concrete queries, discharging
each hypothesis by evaluation.  "zzz" matches no keyword and routes to
"general".  "select linq" is a genuine tie — sql and csharp both score 1 —
and the first-declared agent "sql" wins (a last-maximal-scorer rule would
pick "csharp"); the decomposition conjunct places the winner with all its
declaration-order predecessors scoring strictly less. -/
theorem C5_keyword_fallback_amended_witness :
    (fallback_routing "zzz").primary_agent = "general" ∧
    (fallback_routing "select linq").primary_agent = "sql" ∧
    (fallback_routing "select linq").primary_agent ≠ "csharp" ∧
    (∃ pre x post, fallback_scores (strToLower "select linq") = pre ++ x :: post ∧
      x.1 = (fallback_routing "select linq").primary_agent ∧
      (∀ y ∈ fallback_scores (strToLower "select linq"), y.2 ≤ x.2) ∧
      (∀ y ∈ pre, y.2 < x.2)) :=
  ⟨(C5_keyword_fallback_amended "zzz").2.2.2.2.1 (by decide),
   by decide, by decide,
   (C5_keyword_fallback_amended "select linq").2.2.2.2.2 (by decide)⟩

/-- C6 (counterexample): the parse path produces ill-formed decisions.  A
response listing the primary "csharp" twice under SUPPORTING yields a
supporting list ["csharp", "csharp"] that both duplicates and contains the
primary (confidence high keeps the fallback from replacing it); and a
response with no SUPPORTING line but MODE sequential yields an empty
supporting list with mode "sequential", violating the empty-implies-single
invariant. -/
theorem C6_counterexample :
    (route (Except.ok
        "PRIMARY: csharp\nSUPPORTING: csharp, csharp\nMODE: sequential\nCONFIDENCE: high")
      "q").supporting_agents = ["csharp", "csharp"] ∧
    ¬ RoutingWellFormed (route (Except.ok
        "PRIMARY: csharp\nSUPPORTING: csharp, csharp\nMODE: sequential\nCONFIDENCE: high")
      "q") ∧
    (route (Except.ok "PRIMARY: csharp\nMODE: sequential\nCONFIDENCE: high")
      "q").supporting_agents = [] ∧
    ¬ RoutingWellFormed (route (Except.ok
        "PRIMARY: csharp\nMODE: sequential\nCONFIDENCE: high") "q") :=
  ⟨by decide, by unfold RoutingWellFormed; decide, by decide,
   by unfold RoutingWellFormed; decide⟩

/-- C6 (amended): well-formedness (duplicate-free supporting list not
containing the primary, and empty supporting forcing mode "single") holds
for the keyword-fallback path and for the routing-error path, but not for
the parse path, which only filters candidates to registry membership. -/
theorem C6_wellformed_amended :
    (∀ query, RoutingWellFormed (fallback_routing query)) ∧
    (∀ e query, RoutingWellFormed (route (Except.error e) query)) := by
  constructor
  · intro query
    have hkeys : (fallback_scores (strToLower query)).map Prod.fst
        = ["sql", "csharp", "epicor", "general"] := by
      simp [fallback_scores, available_agents, List.map_map]
    unfold RoutingWellFormed fallback_routing
    dsimp only
    refine ⟨?_, ?_, ?_⟩
    · refine List.Sublist.nodup (List.Sublist.map Prod.fst (List.filter_sublist _)) ?_
      rw [hkeys]
      decide
    · intro hmem
      simp only [List.mem_map, List.mem_filter] at hmem
      obtain ⟨p, ⟨hp, hpred⟩, hfst⟩ := hmem
      rw [Bool.and_eq_true, bne_iff_ne] at hpred
      exact hpred.2 hfst
    · intro h
      rw [h]
      rfl
  · intro e query
    exact ⟨List.nodup_nil, List.not_mem_nil _, fun _ => rfl⟩

/-- C6 witness: the amended well-formedness applied to a concrete fallback
query and a concrete routing error. -/
theorem C6_wellformed_amended_witness :
    RoutingWellFormed (fallback_routing "interpret") ∧
    RoutingWellFormed (route (Except.error "boom") "q") :=
  ⟨C6_wellformed_amended.1 "interpret", C6_wellformed_amended.2 "boom" "q"⟩

/-- C7: `process_query` is a total function of its inputs — the caller
always receives a MultiAgentResult, never an exception (the router's own
reasoning-call failure is already absorbed inside `route`).  When an
exception with text e escapes the execution phase, the boundary converts it
into a result with success = false, mode and primary agent taken from the
already-computed routing decision, and the execution-error message set to e;
without such an exception the result is the projection of the executed
session. -/
theorem C7_boundary (reasoning_call : Except String String) (agents : AgentMap)
    (kr : Option KnowledgeRetriever) (e query : String) :
    (process_query reasoning_call agents kr (some e) query).success = false ∧
    (process_query reasoning_call agents kr (some e) query).mode
      = (route reasoning_call query).collaboration_mode ∧
    (process_query reasoning_call agents kr (some e) query).agents_used
      = [(route reasoning_call query).primary_agent] ∧
    (process_query reasoning_call agents kr (some e) query).execution_error = some e ∧
    process_query reasoning_call agents kr none query
      = build_result
          (dispatch (route reasoning_call query).collaboration_mode
            (create_session query (route reasoning_call query)) agents kr)
          (route reasoning_call query) :=
  ⟨rfl, rfl, rfl, rfl, rfl⟩

/-- C8: `synthesize_responses` on a session with zero messages returns the
fixed sentinel "No responses available.", and on a session with exactly one
message returns that message's text verbatim. -/
theorem C8_synthesize (s : CollaborationSession) :
    (s.messages = [] → s.synthesize_responses = "No responses available.") ∧
    (∀ m, s.messages = [m] → s.synthesize_responses = m.content) := by
  constructor
  · intro h
    unfold CollaborationSession.synthesize_responses
    rw [h]
  · intro m h
    unfold CollaborationSession.synthesize_responses
    rw [h]

/-- C8 witness: the synthesis theorem applied to a concrete empty session and
a concrete one-message session, whose single text "Error: x" is returned
verbatim. -/
theorem C8_synthesize_witness :
    ghostSession.synthesize_responses = "No responses available." ∧
    ({ ghostSession with messages := [mkErrorMessage "P" "x"] }
        : CollaborationSession).synthesize_responses = "Error: x" :=
  ⟨(C8_synthesize ghostSession).1 rfl,
   (C8_synthesize { ghostSession with messages := [mkErrorMessage "P" "x"] }).2
      (mkErrorMessage "P" "x") rfl⟩

/-- A sequential loop iteration for an agent that resolves in the lookup but
has no `process` attribute is the identity on the session — the lookup may
contain arbitrary other responders. -/
theorem seqStep_id_of_noProcess (agents : AgentMap) (kr : Option KnowledgeRetriever)
    (st : CollaborationSession) (k : String) (a : Agent)
    (hl : List.lookup k agents = some a) (hp : a.process? = none) :
    seqStep agents kr st k = st := by
  unfold seqStep
  rw [hl]
  dsimp only
  rw [hp]

/-- A parallel loop iteration for a resolvable process-less agent is the
identity on the session, whatever else the lookup contains. -/
theorem parStep_id_of_noProcess (agents : AgentMap) (kr : Option KnowledgeRetriever)
    (st : CollaborationSession) (k : String) (a : Agent)
    (hl : List.lookup k agents = some a) (hp : a.process? = none) :
    parStep agents kr st k = st := by
  unfold parStep
  rw [hl]
  dsimp only
  rw [hp]

/-- C9: an agent whose identifier resolves in the lookup but whose object has
no `process` attribute is silently skipped in every strategy — in any state
of any run, over an arbitrary mixed lookup, its loop iteration invokes
nothing and appends neither a response nor an error message — while the
sequential and parallel strategies always terminate with status `completed`.
A single-mode run whose primary is such an agent completes with the log
unchanged and, when the log is empty, the "No responses available."
sentinel.  The last conjunct is the mixed scenario in full generality: a
normal primary, a process-less second agent, and a normal third agent yield
exactly the two normal messages (the session record is reused for the
parallel run; the executors never read its mode field). -/
theorem C9_processless_skip :
    (∀ (agents : AgentMap) (kr : Option KnowledgeRetriever) (st : CollaborationSession)
        (k : String) (a : Agent),
        List.lookup k agents = some a → a.process? = none →
        seqStep agents kr st k = st ∧ parStep agents kr st k = st) ∧
    (∀ (s : CollaborationSession) (agents : AgentMap) (kr : Option KnowledgeRetriever),
        (execute_sequential_collaboration s agents kr).status = "completed" ∧
        (execute_parallel_collaboration s agents kr).status = "completed") ∧
    (∀ (s : CollaborationSession) (agents : AgentMap) (kr : Option KnowledgeRetriever)
        (a : Agent),
        List.lookup s.primary_agent agents = some a → a.process? = none →
        execute_single_agent s agents kr
          = { s with status := "completed", final_response := some s.synthesize_responses }) ∧
    (∀ (s : CollaborationSession) (agents : AgentMap) (kr : Option KnowledgeRetriever)
        (a : Agent),
        s.messages = [] → List.lookup s.primary_agent agents = some a → a.process? = none →
        (execute_single_agent s agents kr).final_response
          = some "No responses available.") ∧
    (∀ (q r1 r3 k1 k2 k3 n1 n2 n3 : String) (kr : Option KnowledgeRetriever),
        (k2 == k1) = false → (k3 == k1) = false → (k3 == k2) = false →
        ((execute_sequential_collaboration (seqSession q k1 [k2, k3])
            [(k1, okAgent n1 r1), (k2, { agent_name? := some n2, process? := none }),
             (k3, okAgent n3 r3)] kr).messages
          = [mkResponseMessageSeq n1 (okResult r1), mkResponseMessageSeq n3 (okResult r3)]) ∧
        ((execute_parallel_collaboration (seqSession q k1 [k2, k3])
            [(k1, okAgent n1 r1), (k2, { agent_name? := some n2, process? := none }),
             (k3, okAgent n3 r3)] kr).messages
          = [mkResponseMessagePar n1 (okResult r1), mkResponseMessagePar n3 (okResult r3)])) := by
  have hsingle : ∀ (s : CollaborationSession) (agents : AgentMap)
      (kr : Option KnowledgeRetriever) (a : Agent),
      List.lookup s.primary_agent agents = some a → a.process? = none →
      execute_single_agent s agents kr
        = { s with status := "completed", final_response := some s.synthesize_responses } := by
    intro s agents kr a hl hp
    unfold execute_single_agent
    rw [hl]
    dsimp only
    rw [hp]
    rfl
  refine ⟨?_, ?_, hsingle, ?_, ?_⟩
  · intro agents kr st k a hl hp
    exact ⟨seqStep_id_of_noProcess agents kr st k a hl hp,
           parStep_id_of_noProcess agents kr st k a hl hp⟩
  · intro s agents kr
    exact ⟨rfl, rfl⟩
  · intro s agents kr a hm hl hp
    rw [hsingle s agents kr a hl hp]
    show some s.synthesize_responses = some "No responses available."
    unfold CollaborationSession.synthesize_responses
    rw [hm]
  · intro q r1 r3 k1 k2 k3 n1 n2 n3 kr h21 h31 h32
    constructor
    · simp only [execute_sequential_collaboration, seqSession, List.foldl_cons, List.foldl_nil,
        seqStep, List.lookup, beq_self_eq_true, h21, h31, h32, okAgent, displayName,
        CollaborationSession.add_message, CollaborationSession.get_context_for_agent]
      rfl
    · simp only [execute_parallel_collaboration, seqSession, List.foldl_cons, List.foldl_nil,
        parStep, List.lookup, beq_self_eq_true, h21, h31, h32, okAgent, displayName,
        CollaborationSession.add_message]
      rfl

/-- C9 witness: mixed lookups throughout — a process-less responder "g"
sitting beside normal ones.  Its sequential and parallel loop iterations
leave the session unchanged even though "p" resolves to a normal responder;
the three-agent mixed sequential run records exactly the two normal
responses and completes; and a single run whose primary is the process-less
agent (with a normal responder also present in the lookup) completes with
the sentinel final response. -/
theorem C9_processless_skip_witness :
    seqStep [("p", okAgent "P" "r"), ("g", noProcessAgent)] none ghostSession "g"
      = ghostSession ∧
    parStep [("p", okAgent "P" "r"), ("g", noProcessAgent)] none ghostSession "g"
      = ghostSession ∧
    (execute_sequential_collaboration (seqSession "q" "p" ["g", "s2"])
        [("p", okAgent "P" "ok1"), ("g", noProcessAgent), ("s2", okAgent "S2" "ok2")]
        none).messages
      = [mkResponseMessageSeq "P" (okResult "ok1"),
         mkResponseMessageSeq "S2" (okResult "ok2")] ∧
    (execute_sequential_collaboration (seqSession "q" "p" ["g", "s2"])
        [("p", okAgent "P" "ok1"), ("g", noProcessAgent), ("s2", okAgent "S2" "ok2")]
        none).status = "completed" ∧
    execute_single_agent ghostSessionG [("p", okAgent "P" "r"), ("g", noProcessAgent)] none
      = { ghostSessionG with
          status := "completed"
          final_response := some ghostSessionG.synthesize_responses } ∧
    (execute_single_agent ghostSessionG
        [("p", okAgent "P" "r"), ("g", noProcessAgent)] none).final_response
      = some "No responses available." := by
  have hthm := C9_processless_skip
  exact ⟨(hthm.1 [("p", okAgent "P" "r"), ("g", noProcessAgent)] none ghostSession "g"
            noProcessAgent rfl rfl).1,
         (hthm.1 [("p", okAgent "P" "r"), ("g", noProcessAgent)] none ghostSession "g"
            noProcessAgent rfl rfl).2,
         (hthm.2.2.2.2 "q" "ok1" "ok2" "p" "g" "s2" "P" "G" "S2" none
            (by decide) (by decide) (by decide)).1,
         (hthm.2.1 (seqSession "q" "p" ["g", "s2"])
            [("p", okAgent "P" "ok1"), ("g", noProcessAgent), ("s2", okAgent "S2" "ok2")]
            none).1,
         hthm.2.2.1 ghostSessionG [("p", okAgent "P" "r"), ("g", noProcessAgent)] none
            noProcessAgent rfl rfl,
         hthm.2.2.2.1 ghostSessionG [("p", okAgent "P" "r"), ("g", noProcessAgent)] none
            noProcessAgent rfl rfl rfl⟩

/-- The mode dispatch preserves the session's primary and supporting agent
fields whichever strategy runs (or none). -/
theorem dispatch_fields (mode : String) (s : CollaborationSession) (agents : AgentMap)
    (kr : Option KnowledgeRetriever) :
    (dispatch mode s agents kr).primary_agent = s.primary_agent ∧
    (dispatch mode s agents kr).supporting_agents = s.supporting_agents := by
  unfold dispatch
  split_ifs
  · exact ⟨(execute_single_fields s agents kr).1, (execute_single_fields s agents kr).2.1⟩
  · exact ⟨(execute_sequential_fields s agents kr).1, (execute_sequential_fields s agents kr).2.1⟩
  · exact ⟨(execute_parallel_fields s agents kr).1, (execute_parallel_fields s agents kr).2.1⟩
  · exact ⟨rfl, rfl⟩

/-- C10: the Result projection's agents_used list always equals the
session's primary agent followed by its supporting agents, regardless of
which agents actually produced messages (skipped or unresolvable agents are
still listed); on the normal orchestration path this is the routing
decision's primary followed by its supporting list. -/
theorem C10_agents_used :
    (∀ (session : CollaborationSession) (routing : Routing),
      (build_result session routing).agents_used
        = session.primary_agent :: session.supporting_agents) ∧
    (∀ (reasoning_call : Except String String) (agents : AgentMap)
        (kr : Option KnowledgeRetriever) (query : String),
      (process_query reasoning_call agents kr none query).agents_used
        = (route reasoning_call query).primary_agent
            :: (route reasoning_call query).supporting_agents) := by
  constructor
  · intro session routing
    rfl
  · intro rc agents kr query
    have hd := dispatch_fields (route rc query).collaboration_mode
      (create_session query (route rc query)) agents kr
    have h1 : (process_query rc agents kr none query).agents_used
        = (dispatch (route rc query).collaboration_mode
              (create_session query (route rc query)) agents kr).primary_agent
          :: (dispatch (route rc query).collaboration_mode
              (create_session query (route rc query)) agents kr).supporting_agents := rfl
    rw [h1, hd.1, hd.2]
    rfl
